import Mathlib

/-!
Verification of `src/main.py` (MangibinRainfall): a shallow embedding of the
field flattener (`extract_all_fields`), the table builder
(`parse_and_save_csv`), the resilient fetcher
(`fetch_weather_data_with_retry`), the pipeline boundary
(`send_daily_weather_update` / the `ดึงข้อมูล` branch of `handle_message`),
the status-check branch (`เช็คข้อมูล` / `count_stations_in_weather_data`),
and the subscriber registry (`register_user` / `unregister_user`).

Python `dict`s are modelled as association lists with the replace-or-append
semantics of `d[k] = v`; machine strings are Lean `String`s; exceptions are
modelled as `Except`/`Option` results; file-system and network effects are
modelled as explicit state (a Boolean "artifact exists" flag, a list of
(recipient, message) sends).
-/

/-- A Python `dict[str, str]`: an association list, first binding of a key is
its value, and `dinsert` (below) keeps at most one binding per key. -/
def Dict : Type := List (String × String)

instance : DecidableEq Dict := inferInstanceAs (DecidableEq (List (String × String)))

/-- Lookup (`d[k]` / `d.get(k)`): the binding of `k`, if any. -/
def dget : Dict → String → Option String
  | [], _ => none
  | p :: rest, k => if p.1 = k then some p.2 else dget rest k

/-- Python dict item assignment `d[k] = v`: replace the existing binding of
`k` in place, or append a new binding at the end. -/
def dinsert : Dict → String → String → Dict
  | [], k, v => [(k, v)]
  | p :: rest, k, v => if p.1 = k then (k, v) :: rest else p :: dinsert rest k v

/-- Python `d.update(m)` (and a `for`-loop of assignments): perform the
assignments of `m` in order, later assignments overwriting earlier ones. -/
def dupdate : Dict → Dict → Dict
  | d, [] => d
  | d, p :: rest => dupdate (dinsert d p.1 p.2) rest

/-- First component of `a`, else `b` — used to state "later write wins". -/
def oor : Option String → Option String → Option String
  | some v, _ => some v
  | none, b => b

/-- The value of the LAST write of key `k` in a sequence of writes. -/
def lookupLast : List (String × String) → String → Option String
  | [], _ => none
  | p :: rest, k => oor (lookupLast rest k) (if p.1 = k then some p.2 else none)

/-- The keys of a dict, in insertion order. -/
def dkeys (d : Dict) : List String := d.map (fun p => p.1)

/-!
## XML model and the field flattener (`extract_all_fields`, main.py lines 96-106)

An `ElementTree` element: tag, attribute list (in document order), optional
text, and the ordered forest of child elements. The node/forest pair is a
mutual inductive so that recursion over it is structural.
-/

mutual
inductive XmlNode : Type where
  | elem (tag : String) (attrs : List (String × String)) (textv : Option String)
      (children : XmlForest)
  deriving DecidableEq
inductive XmlForest : Type where
  | nil : XmlForest
  | cons (head : XmlNode) (tail : XmlForest) : XmlForest
  deriving DecidableEq
end

/-- The element's tag (`child.tag`). -/
def XmlNode.tag : XmlNode → String
  | .elem t _ _ _ => t

/-- The element's attributes in document order (`child.attrib.items()`). -/
def XmlNode.attrs : XmlNode → List (String × String)
  | .elem _ a _ _ => a

/-- The element's text (`child.text`; `none` models Python `None`). -/
def XmlNode.textv : XmlNode → Option String
  | .elem _ _ x _ => x

/-- The element's children in document order. -/
def XmlNode.children : XmlNode → XmlForest
  | .elem _ _ _ c => c

/-- `key_prefix = f"{prefix}{tag}" if prefix == "" else f"{prefix}_{tag}"`
(main.py line 100; when the first branch is taken the former equals `tag`). -/
def childKey (pfx tag : String) : String :=
  if pfx = "" then tag else pfx ++ "_" ++ tag

/-- The attribute assignments of the loop at main.py lines 101-102:
`data[f"{key_prefix}_{attr_key}"] = attr_val` for each attribute in order. -/
def attrWrites (kp : String) (attrs : List (String × String)) :
    List (String × String) :=
  attrs.map (fun p => (kp ++ "_" ++ p.1, p.2))

/-- Python `str.strip()`: remove leading and trailing whitespace. -/
def pyStrip (s : String) : String :=
  ((s.toList.dropWhile Char.isWhitespace).reverse.dropWhile Char.isWhitespace).reverse.asString

/-- The text assignment of main.py lines 103-104: `data[key_prefix] =
child.text.strip()` when `child.text` is truthy and strips to non-blank
(zero or one assignment; `child.text and child.text.strip()` is truthy
exactly when the stripped text is non-empty). -/
def textWrites (kp : String) (textv : Option String) : List (String × String) :=
  match textv with
  | some t => if pyStrip t = "" then [] else [(kp, pyStrip t)]
  | none => []

mutual
/-- `extract_all_fields(elem, prefix="")` (main.py lines 96-106): starts from
the empty dict and processes each direct child in order. -/
def extract_all_fields : XmlNode → String → Dict
  | XmlNode.elem _ _ _ cs, pfx => extractChildren cs pfx []
termination_by structural e _ => e
/-- The `for child in elem` loop body of `extract_all_fields`, threading the
accumulated dict `data`: attribute assignments, then the text assignment,
then `data.update(extract_all_fields(child, key_prefix))`. -/
def extractChildren : XmlForest → String → Dict → Dict
  | XmlForest.nil, _, data => data
  | XmlForest.cons c rest, pfx, data =>
      let kp := childKey pfx c.tag
      let d1 := dupdate data (attrWrites kp c.attrs)
      let d2 := dupdate d1 (textWrites kp c.textv)
      let d3 := dupdate d2 (extract_all_fields c kp)
      extractChildren rest pfx d3
termination_by structural f _ _ => f
end

mutual
/-- The linear sequence of dict writes performed by `extract_all_fields`, in
document order, as described by the spec (section 4.1): per child, the
attribute writes, then the text write, then — merged last — the writes of the
recursive call with the child's key as the new prefix. -/
def writeSeq : XmlNode → String → List (String × String)
  | XmlNode.elem _ _ _ cs, pfx => writeSeqChildren cs pfx
termination_by structural e _ => e
/-- The per-child write sequences, concatenated in document order. -/
def writeSeqChildren : XmlForest → String → List (String × String)
  | XmlForest.nil, _ => []
  | XmlForest.cons c rest, pfx =>
      let kp := childKey pfx c.tag
      attrWrites kp c.attrs ++ textWrites kp c.textv ++ writeSeq c kp
        ++ writeSeqChildren rest pfx
termination_by structural f _ => f
end

mutual
/-- All proper descendants of a node, in document (preorder) order — the
node set selected by `findall(".//tag")` before tag filtering. -/
def descendants : XmlNode → List XmlNode
  | XmlNode.elem _ _ _ cs => forestNodes cs
termination_by structural e => e
/-- All nodes of a forest and their descendants, in document order. -/
def forestNodes : XmlForest → List XmlNode
  | XmlForest.nil => []
  | XmlForest.cons c rest => c :: (descendants c ++ forestNodes rest)
termination_by structural f => f
end

/-- `root.findall(".//Station")` (main.py line 111): every descendant element
tagged `Station`, in document order, the root excluded. -/
def findStations (root : XmlNode) : List XmlNode :=
  (descendants root).filter (fun e => e.tag == "Station")

/-!
## Table builder (`parse_and_save_csv`, main.py lines 108-129)
-/

/-- main.py lines 114-117: one flattened row per `Station` element, in
document order — no filtering, no deduplication. -/
def buildRows (root : XmlNode) : List Dict :=
  (findStations root).map (fun s => extract_all_fields s "")

/-- main.py line 119: the fixed priority field names, in declared order. -/
def priority_fields : List String :=
  ["WmoStationNumber", "Observation_Rainfall", "Observation_Rainfall_Unit"]

/-- The concatenation of all rows' key lists, in row order. -/
def allKeys : List Dict → List String
  | [] => []
  | d :: rest => dkeys d ++ allKeys rest

/-- `all_fields` (main.py lines 112, 116): the set of keys observed across all
rows, modelled as a duplicate-free list (it is only consumed through `sorted`
and membership, so which duplicate survives is irrelevant). -/
def all_fields (rows : List Dict) : List String := (allKeys rows).dedup

/-- main.py line 120:
`sorted(f for f in all_fields if f not in priority_fields)`. -/
def remaining_fields (rows : List Dict) : List String :=
  List.insertionSort (fun a b => a ≤ b)
    ((all_fields rows).filter (fun f => !(priority_fields.contains f)))

/-- main.py line 121: `fieldnames = priority_fields + remaining_fields`. -/
def fieldnames (rows : List Dict) : List String :=
  priority_fields ++ remaining_fields rows

/-- A `csv.DictWriter` cell: `row.get(field, restval)` with the default
`restval=''` — the empty string when the row lacks the field. -/
def cellValue (row : Dict) (f : String) : String := (dget row f).getD ""

/-- One written record (main.py lines 124-127): the row's value for every
schema field, in schema order. -/
def csvRow (fns : List String) (row : Dict) : List String := fns.map (cellValue row)

/-- The written table body (header line excluded): one record per station,
in document order. -/
def csvRows (root : XmlNode) : List (List String) :=
  (buildRows root).map (csvRow (fieldnames (buildRows root)))

/-- `parse_and_save_csv(xml_data, filename)` (main.py lines 108-129), with the
XML parse modelled as an `Except` input and the file content as the returned
(header, body) pair; a parse failure is re-raised with the wrapping message of
line 129. -/
def parse_and_save_csv (xml : Except String XmlNode) :
    Except String (List String × List (List String)) :=
  match xml with
  | Except.error e => Except.error ("Error parsing XML data: " ++ e)
  | Except.ok root => Except.ok (fieldnames (buildRows root), csvRows root)


/-!
## Resilient fetcher (`fetch_weather_data_with_retry`, main.py lines 64-91)
-/

/-- The observable behaviour of the headless browser on one attempt:
`createFail` — `webdriver.Chrome(...)` raises `WebDriverException` before a
session exists; `failAfterCreate` — the session is created and then
`set_page_load_timeout`/`get`/`page_source` raises `WebDriverException`;
`page src` — the page renders and `driver.page_source` is `src`. -/
inductive DriverBehavior : Type where
  | createFail : DriverBehavior
  | failAfterCreate : DriverBehavior
  | page (src : String) : DriverBehavior
  deriving DecidableEq

/-- What one iteration of the `try` block (main.py lines 67-87) did: whether
a browser session was created, whether `driver.quit()` ran, and the payload
returned in case the sentinel was found. -/
structure AttemptTrace where
  acquired : Bool
  released : Bool
  result : Option String
  deriving DecidableEq

/-- `needle` is a leading segment of `hay`. -/
def leadsWith : List Char → List Char → Bool
  | [], _ => true
  | _ :: _, [] => false
  | a :: as, b :: bs => a == b && leadsWith as bs

/-- `needle` occurs as a contiguous segment of `hay`. -/
def hasSub (needle : List Char) : List Char → Bool
  | [] => needle.isEmpty
  | c :: rest => leadsWith needle (c :: rest) || hasSub needle rest

/-- The sentinel check of main.py line 82: `"<Station" in page_source`. -/
def containsStation (s : String) : Bool := hasSub "<Station".toList s.toList

/-- One iteration of the `try`/`except WebDriverException` block (main.py
lines 67-87). On a rendered page, `driver.quit()` (line 80) runs BEFORE the
sentinel check (line 82), so the session is released whether or not the
sentinel is found, and the payload (`page_source.encode("utf-8")`, modelled
as the string itself) is returned exactly when the sentinel is present. The
`except` clause (lines 86-87) only prints: a `WebDriverException` raised
after session creation leaves the session unreleased (no `finally`). -/
def runAttempt : DriverBehavior → AttemptTrace
  | DriverBehavior.createFail => ⟨false, false, none⟩
  | DriverBehavior.failAfterCreate => ⟨true, false, none⟩
  | DriverBehavior.page src =>
      ⟨true, true, if containsStation src then some src else none⟩

/-- The outcome of attempt `i` against `upstream`: the payload when the
rendered page contained the sentinel, otherwise `none` (sentinel missing or
`WebDriverException`). -/
def attemptResult (upstream : Nat → DriverBehavior) (i : Nat) : Option String :=
  (runAttempt (upstream i)).result

/-- The observable outcome of a whole fetch: the returned payload (`none`
models the terminal `Exception("Failed to fetch weather data after retries")`
of main.py line 91), the number of loop iterations run, and the number of
`time.sleep(wait_seconds)` backoffs taken (lines 88-90). -/
structure FetchTrace where
  result : Option String
  attempts : Nat
  sleeps : Nat
  deriving DecidableEq

/-- The `for attempt in range(retries)` loop (main.py lines 66-90), with
`remaining` iterations still to run and `attempt` the current index. The
backoff guard `attempt < retries - 1` (line 88) is equivalent to
`remaining ≠ 0` under the loop invariant `attempt + remaining = retries`,
which holds for every call reachable from `fetch_weather_data_with_retry`. -/
def fetchLoop (upstream : Nat → DriverBehavior) : Nat → Nat → FetchTrace
  | 0, _ => ⟨none, 0, 0⟩
  | remaining + 1, attempt =>
      match (runAttempt (upstream attempt)).result with
      | some payload => ⟨some payload, 1, 0⟩
      | none =>
          let rest := fetchLoop upstream remaining (attempt + 1)
          ⟨rest.result, rest.attempts + 1,
            rest.sleeps + (if remaining ≠ 0 then 1 else 0)⟩

/-- `fetch_weather_data_with_retry(retries, wait_seconds=3)` (main.py
lines 64-91), parametrised by the browser behaviour on each attempt. -/
def fetch_weather_data_with_retry (upstream : Nat → DriverBehavior)
    (retries : Nat) : FetchTrace :=
  fetchLoop upstream retries 0

/-- `fetch_weather_data()` (main.py lines 93-94): the retrying fetch with the
default `retries=3`. -/
def fetch_weather_data (upstream : Nat → DriverBehavior) : FetchTrace :=
  fetch_weather_data_with_retry upstream 3

/-!
## Pipeline boundary (`send_daily_weather_update`, main.py lines 160-176,
and the `ดึงข้อมูล` branch of `handle_message`, lines 193-208)
-/

/-- Outcomes of the three effectful pipeline steps for one run, each carrying
its exception text on failure: the fetch (the terminal retry exception of
main.py line 91 — the spec's `FetchError`), the parse-and-save (the wrapping
exception of line 129 — `ParseError`; the CSV file is created exactly when
this step succeeds, since `ET.fromstring` runs before the file is opened),
and the upload (`UploadError`). -/
structure PipeEnv where
  fetchR : Except String String
  parseR : Except String Unit
  uploadR : Except String String

/-- The `try` body shared by the scheduled run (lines 167-169) and the
on-demand run (lines 199-201): the upload URL or the first exception's text,
together with whether the artifact file exists when `finally` is reached. -/
def pipelineBody (env : PipeEnv) : Except String String × Bool :=
  match env.fetchR with
  | Except.error e => (Except.error e, false)
  | Except.ok _ =>
      match env.parseR with
      | Except.error e => (Except.error e, false)
      | Except.ok _ =>
          match env.uploadR with
          | Except.error e => (Except.error e, true)
          | Except.ok url => (Except.ok url, true)

/-- The message composed by `send_daily_weather_update` (lines 170-172):
success text with the link, or the caught exception rendered into the
failure text. -/
def dailyMessage (env : PipeEnv) (dateText : String) : String :=
  match (pipelineBody env).1 with
  | Except.ok url =>
      "🌤️ อัปเดตสภาพอากาศประจำวันที่ " ++ dateText ++ " ครับ\n📂 ดาวน์โหลดไฟล์: " ++ url
  | Except.error e => "❌ ข้อผิดพลาดในการอัปเดตสภาพอากาศ: " ++ e

/-- `send_daily_weather_update()` (main.py lines 160-176): run the pipeline,
convert any exception into the failure message, remove the artifact in the
`finally` clause (lines 173-175), then push the message to every registered
user (line 176 via lines 140-148). Result: the (recipient, message) pushes
and whether the artifact file still exists afterwards. -/
def send_daily_weather_update (env : PipeEnv) (dateText : String)
    (registered_users : List String) : List (String × String) × Bool :=
  let body := pipelineBody env
  let fileAtEnd := if body.2 then false else body.2
  (registered_users.map (fun u => (u, dailyMessage env dateText)), fileAtEnd)

/-- The reply composed by the `ดึงข้อมูล` branch (lines 202-204). -/
def pullReply (env : PipeEnv) : String :=
  match (pipelineBody env).1 with
  | Except.ok url => "✅ ดึงข้อมูลเรียบร้อยแล้ว!\n📂 ดาวน์โหลดไฟล์ CSV ได้ที่: " ++ url
  | Except.error e => "❌ เกิดข้อผิดพลาดในการดึงข้อมูล: " ++ e

/-- The `ดึงข้อมูล` branch of `handle_message` (main.py lines 193-208): the
single `reply_message` to the requesting user (line 208) after the `finally`
cleanup (lines 205-207). -/
def handle_pull (env : PipeEnv) (user : String) : List (String × String) × Bool :=
  let body := pipelineBody env
  let fileAtEnd := if body.2 then false else body.2
  ([(user, pullReply env)], fileAtEnd)

/-!
## Status check (`count_stations_in_weather_data`, main.py lines 150-158,
and the `เช็คข้อมูล` branch, lines 189-192)
-/

/-- `count_stations_in_weather_data()` (main.py lines 150-158): on a
successful fetch and parse (modelled jointly by the `Except` input) the
number of `.//Station` matches; on any exception, `None`. -/
def count_stations_in_weather_data (fetchParse : Except String XmlNode) :
    Option Nat :=
  match fetchParse with
  | Except.ok root => some (findStations root).length
  | Except.error _ => none

/-- The `เช็คข้อมูล` reply (main.py line 191):
`f"📡 ... {count} ..." if count else "เกิดข้อผิดพลาด..."`. Python truthiness
sends both `None` and `0` to the error branch. -/
def checkReply (count : Option Nat) : String :=
  match count with
  | some n =>
      if n ≠ 0 then "📡 ขณะนี้มีข้อมูลจากทั้งหมด " ++ toString n ++ " สถานีครับ"
      else "เกิดข้อผิดพลาดในการดึงข้อมูลสถานี 😢"
  | none => "เกิดข้อผิดพลาดในการดึงข้อมูลสถานี 😢"

/-!
## Subscriber registry (main.py lines 41-62)
-/

/-- `get_registered_users()` (main.py lines 41-45): the stored subscriber
list; the line-oriented file is modelled as its list of stripped non-empty
lines. -/
def get_registered_users (store : List String) : List String := store

/-- `register_user(user_id)` (main.py lines 47-54): append one line exactly
when the identifier is not already present. -/
def register_user (store : List String) (user_id : String) : List String :=
  if user_id ∈ get_registered_users store then store
  else store ++ [user_id]

/-- `unregister_user(user_id)` (main.py lines 56-62): when present, drop the
first occurrence (`list.remove`) and rewrite the file; when absent, do not
touch the file and raise nothing. -/
def unregister_user (store : List String) (user_id : String) : List String :=
  if user_id ∈ get_registered_users store then
    (get_registered_users store).erase user_id
  else store

/-- A document with one `Station` element nested inside another — the input
refuting C10's "never appears in any row" consequence. -/
def nestedStationsDoc : XmlNode :=
  XmlNode.elem "root" [] none
    (XmlForest.cons
      (XmlNode.elem "Station" [("id", "001")] none
        (XmlForest.cons (XmlNode.elem "Station" [("id", "002")] none XmlForest.nil)
          XmlForest.nil))
      XmlForest.nil)

/-- An empty feed: the rendered page `<Stations></Stations>` contains the
sentinel substring `<Station`, parses, and has zero `.//Station` matches. -/
def emptyFeedDoc : XmlNode := XmlNode.elem "Stations" [] none XmlForest.nil

/-- An upstream whose browser always fails to create a session. -/
def upAlwaysFail : Nat → DriverBehavior := fun _ => DriverBehavior.createFail

/-- An upstream that serves a JS shell (no sentinel) twice, then real data. -/
def upThirdTry : Nat → DriverBehavior := fun i =>
  if i < 2 then DriverBehavior.page "<html>loading...</html>"
  else DriverBehavior.page "<Stations><Station/></Stations>"

/-- A pipeline environment whose fetch step fails. -/
def envFetchFail : PipeEnv :=
  ⟨Except.error "Failed to fetch weather data after retries",
    Except.ok (), Except.ok "https://drive.google.com/file/d/abc/view"⟩

/-- A pipeline environment in which every step succeeds. -/
def envAllOk : PipeEnv :=
  ⟨Except.ok "<Stations/>", Except.ok (),
    Except.ok "https://drive.google.com/file/d/abc/view"⟩

/-!
## Lemmas
-/

theorem oor_none_right (a : Option String) : oor a none = a := by
  cases a <;> rfl

theorem oor_assoc (a b c : Option String) : oor (oor a b) c = oor a (oor b c) := by
  cases a <;> cases b <;> rfl

theorem dget_dinsert (d : Dict) (k v k' : String) :
    dget (dinsert d k v) k' = if k = k' then some v else dget d k' := by
  induction d with
  | nil => simp [dinsert, dget]
  | cons p rest ih =>
    by_cases hpk : p.1 = k
    · subst hpk
      simp only [dinsert, if_pos rfl, dget]
      by_cases h : p.1 = k' <;> simp [h]
    · simp only [dinsert, if_neg hpk, dget, ih]
      by_cases h1 : p.1 = k' <;> by_cases h2 : k = k' <;> simp_all

theorem dget_dupdate (d m : Dict) (k : String) :
    dget (dupdate d m) k = oor (lookupLast m k) (dget d k) := by
  induction m generalizing d with
  | nil => simp [dupdate, lookupLast, oor]
  | cons p rest ih =>
    simp only [dupdate, lookupLast, ih, dget_dinsert]
    rw [oor_assoc]
    by_cases h : p.1 = k <;> simp [h, oor]

theorem dkeys_nil : dkeys ([] : Dict) = [] := rfl

theorem dkeys_cons (p : String × String) (rest : Dict) :
    dkeys (p :: rest) = p.1 :: dkeys rest := rfl

theorem lookupLast_append (l1 l2 : List (String × String)) (k : String) :
    lookupLast (l1 ++ l2) k = oor (lookupLast l2 k) (lookupLast l1 k) := by
  induction l1 with
  | nil => simp [lookupLast, oor_none_right]
  | cons p rest ih =>
    show lookupLast (p :: (rest ++ l2)) k = _
    rw [lookupLast, ih, lookupLast, oor_assoc]

theorem lookupLast_eq_none_of_not_mem (d : Dict) (k : String) (h : ¬ k ∈ dkeys d) :
    lookupLast d k = none := by
  induction d with
  | nil => rfl
  | cons p rest ih =>
    rw [dkeys_cons, List.mem_cons, not_or] at h
    have h1 : p.1 ≠ k := fun e => h.1 e.symm
    simp [lookupLast, ih h.2, h1, oor]

theorem mem_dkeys_dinsert (d : Dict) (k v x : String) :
    x ∈ dkeys (dinsert d k v) ↔ x = k ∨ x ∈ dkeys d := by
  induction d with
  | nil => simp [dinsert, dkeys]
  | cons p rest ih =>
    by_cases h : p.1 = k
    · simp only [dinsert, if_pos h, dkeys_cons, List.mem_cons]
      subst h
      tauto
    · simp only [dinsert, if_neg h, dkeys_cons, List.mem_cons, ih]
      tauto

theorem nodup_dkeys_dinsert (d : Dict) (k v : String) (h : (dkeys d).Nodup) :
    (dkeys (dinsert d k v)).Nodup := by
  induction d with
  | nil => simp [dinsert, dkeys]
  | cons p rest ih =>
    rw [dkeys_cons, List.nodup_cons] at h
    by_cases hpk : p.1 = k
    · subst hpk
      simpa [dinsert, dkeys_cons, List.nodup_cons] using h
    · simp only [dinsert, if_neg hpk, dkeys_cons, List.nodup_cons]
      refine ⟨fun hm => ?_, ih h.2⟩
      rcases (mem_dkeys_dinsert rest k v p.1).1 hm with h1 | h1
      · exact hpk h1
      · exact h.1 h1

theorem nodup_dkeys_dupdate (d m : Dict) (h : (dkeys d).Nodup) :
    (dkeys (dupdate d m)).Nodup := by
  induction m generalizing d with
  | nil => exact h
  | cons p rest ih => exact ih _ (nodup_dkeys_dinsert d p.1 p.2 h)

theorem lookupLast_eq_dget_of_nodup (d : Dict) (k : String) (h : (dkeys d).Nodup) :
    lookupLast d k = dget d k := by
  induction d with
  | nil => rfl
  | cons p rest ih =>
    rw [dkeys_cons, List.nodup_cons] at h
    by_cases hpk : p.1 = k
    · have hnm : ¬ k ∈ dkeys rest := by rw [← hpk]; exact h.1
      simp [lookupLast, dget, hpk, lookupLast_eq_none_of_not_mem rest k hnm, oor]
    · simp [lookupLast, dget, hpk, oor_none_right, ih h.2]

theorem lookupLast_ne_none_iff (l : List (String × String)) (k : String) :
    lookupLast l k ≠ none ↔ k ∈ l.map (fun p => p.1) := by
  induction l with
  | nil => simp [lookupLast]
  | cons p rest ih =>
    by_cases hpk : p.1 = k
    · simp only [lookupLast, if_pos hpk, List.map_cons, List.mem_cons]
      cases lookupLast rest k <;> simp [oor, hpk]
    · have hkp : ¬ k = p.1 := fun h => hpk h.symm
      simp [lookupLast, hpk, oor_none_right, ih, hkp]

theorem nodup_dkeys_extractChildren (cs : XmlForest) (pfx : String) (data : Dict)
    (h : (dkeys data).Nodup) : (dkeys (extractChildren cs pfx data)).Nodup := by
  cases cs with
  | nil => simpa only [extractChildren] using h
  | cons c rest =>
    simp only [extractChildren]
    exact nodup_dkeys_extractChildren rest pfx _
      (nodup_dkeys_dupdate _ _ (nodup_dkeys_dupdate _ _ (nodup_dkeys_dupdate _ _ h)))
termination_by structural cs

theorem nodup_dkeys_extract (e : XmlNode) (pfx : String) :
    (dkeys (extract_all_fields e pfx)).Nodup := by
  cases e with
  | elem t a x cs =>
    simp only [extract_all_fields]
    exact nodup_dkeys_extractChildren cs pfx [] (by simp [dkeys])

mutual
theorem dget_extract (e : XmlNode) (pfx k : String) :
    dget (extract_all_fields e pfx) k = lookupLast (writeSeq e pfx) k := by
  cases e with
  | elem t a x cs =>
    simp only [extract_all_fields, writeSeq]
    rw [dget_extractChildren cs pfx k []]
    simp [dget, oor_none_right]
termination_by structural e
theorem dget_extractChildren (cs : XmlForest) (pfx k : String) (data : Dict) :
    dget (extractChildren cs pfx data) k
      = oor (lookupLast (writeSeqChildren cs pfx) k) (dget data k) := by
  cases cs with
  | nil => simp only [extractChildren, writeSeqChildren, lookupLast, oor]
  | cons c rest =>
    simp only [extractChildren, writeSeqChildren]
    rw [dget_extractChildren rest pfx k _]
    rw [dget_dupdate, dget_dupdate, dget_dupdate]
    rw [lookupLast_eq_dget_of_nodup (extract_all_fields c (childKey pfx c.tag)) k
          (nodup_dkeys_extract c (childKey pfx c.tag))]
    rw [dget_extract c (childKey pfx c.tag) k]
    rw [lookupLast_append, lookupLast_append, lookupLast_append]
    simp [oor_assoc]
termination_by structural cs
end
theorem allKeys_perm {rows rows2 : List Dict} (h : List.Perm rows rows2) :
    List.Perm (allKeys rows) (allKeys rows2) := by
  induction h with
  | nil => exact List.Perm.refl _
  | cons d _ ih => exact ih.append_left (dkeys d)
  | swap d1 d2 l =>
    show List.Perm (dkeys d2 ++ (dkeys d1 ++ allKeys l))
      (dkeys d1 ++ (dkeys d2 ++ allKeys l))
    rw [← List.append_assoc, ← List.append_assoc]
    exact List.perm_append_comm.append_right (allKeys l)
  | trans _ _ ih1 ih2 => exact ih1.trans ih2

theorem sorted_remaining_fields (rows : List Dict) :
    List.Sorted (fun a b => a ≤ b) (remaining_fields rows) :=
  List.sorted_insertionSort _ _

theorem nodup_remaining_fields (rows : List Dict) :
    (remaining_fields rows).Nodup :=
  ((List.perm_insertionSort _ _).nodup_iff).2
    ((allKeys rows).nodup_dedup.filter _)

theorem mem_remaining_fields (rows : List Dict) (k : String) :
    k ∈ remaining_fields rows ↔ k ∈ allKeys rows ∧ ¬ k ∈ priority_fields := by
  simp [remaining_fields, all_fields, List.mem_filter]

theorem remaining_fields_perm_invariant {rows rows2 : List Dict}
    (h : List.Perm rows rows2) :
    remaining_fields rows = remaining_fields rows2 := by
  apply List.eq_of_perm_of_sorted ?_ (sorted_remaining_fields rows)
    (sorted_remaining_fields rows2)
  rw [List.perm_ext_iff_of_nodup (nodup_remaining_fields rows)
    (nodup_remaining_fields rows2)]
  intro a
  rw [mem_remaining_fields, mem_remaining_fields,
    (allKeys_perm h).mem_iff]


theorem fetchLoop_attempts_le (up : Nat → DriverBehavior) (n a : Nat) :
    (fetchLoop up n a).attempts ≤ n := by
  induction n generalizing a with
  | zero => simp [fetchLoop]
  | succ m ih =>
    cases h : (runAttempt (up a)).result with
    | some p => simp [fetchLoop, h]
    | none =>
      simp only [fetchLoop, h]
      have := ih (a + 1)
      omega

theorem fetch_all_fail (up : Nat → DriverBehavior)
    (h0 : attemptResult up 0 = none) (h1 : attemptResult up 1 = none)
    (h2 : attemptResult up 2 = none) :
    fetch_weather_data up = ⟨none, 3, 2⟩ := by
  simp only [attemptResult] at h0 h1 h2
  simp [fetch_weather_data, fetch_weather_data_with_retry, fetchLoop, h0, h1, h2]

theorem fetch_succ0 (up : Nat → DriverBehavior) (p : String)
    (h0 : attemptResult up 0 = some p) :
    fetch_weather_data up = ⟨some p, 1, 0⟩ := by
  simp only [attemptResult] at h0
  simp [fetch_weather_data, fetch_weather_data_with_retry, fetchLoop, h0]

theorem fetch_succ1 (up : Nat → DriverBehavior) (p : String)
    (h0 : attemptResult up 0 = none) (h1 : attemptResult up 1 = some p) :
    fetch_weather_data up = ⟨some p, 2, 1⟩ := by
  simp only [attemptResult] at h0 h1
  simp [fetch_weather_data, fetch_weather_data_with_retry, fetchLoop, h0, h1]

theorem fetch_succ2 (up : Nat → DriverBehavior) (p : String)
    (h0 : attemptResult up 0 = none) (h1 : attemptResult up 1 = none)
    (h2 : attemptResult up 2 = some p) :
    fetch_weather_data up = ⟨some p, 3, 2⟩ := by
  simp only [attemptResult] at h0 h1 h2
  simp [fetch_weather_data, fetch_weather_data_with_retry, fetchLoop, h0, h1, h2]

/-!
## Claim theorems
-/

/-- C1: `extract_all_fields(node, keyPrefix)` produces exactly the mapping
determined by the write sequence `writeSeq` — per direct child, in document
order: the attribute writes `key_attrName -> attrValue`, then the non-blank
stripped-text write `key -> trimmedText`, then (merged last) the writes of
the recursive call with `keyPrefix = key`, where
`key = child.tag` when `keyPrefix` is empty and `keyPrefix_child.tag`
otherwise — and on any key collision the later write in this order wins: the
dict's value at every key `k` equals the LAST write of `k` in the sequence,
and a key is present exactly when it is written. -/
theorem flatten_last_write_wins (e : XmlNode) (pfx k : String) :
    dget (extract_all_fields e pfx) k = lookupLast (writeSeq e pfx) k ∧
    (dget (extract_all_fields e pfx) k ≠ none
      ↔ k ∈ (writeSeq e pfx).map (fun p => p.1)) := by
  refine ⟨dget_extract e pfx k, ?_⟩
  rw [dget_extract e pfx k]
  exact lookupLast_ne_none_iff _ k

/-- C2: `fetch_weather_data` (retries=3) makes at most 3 attempts; when the
first sentinel-carrying page appears on attempt `i` (earlier attempts all
failing) it returns that payload immediately, having made `i+1` attempts and
slept `i` fixed backoffs; when all attempts fail (sentinel missing or
`WebDriverException`) it raises the terminal exception (`result = none`)
after exactly 3 attempts and 2 backoffs — a backoff is taken only when more
attempts remain. -/
theorem fetch_retry_bound (up : Nat → DriverBehavior) :
    (fetch_weather_data up).attempts ≤ 3 ∧
    ((∀ i, i < 3 → attemptResult up i = none) →
      fetch_weather_data up = ⟨none, 3, 2⟩) ∧
    (∀ i p, i < 3 → attemptResult up i = some p →
      (∀ j, j < i → attemptResult up j = none) →
      fetch_weather_data up = ⟨some p, i + 1, i⟩) := by
  refine ⟨fetchLoop_attempts_le up 3 0, ?_, ?_⟩
  · intro h
    exact fetch_all_fail up (h 0 (by omega)) (h 1 (by omega)) (h 2 (by omega))
  · intro i p hi hs hprev
    interval_cases i
    · exact fetch_succ0 up p hs
    · exact fetch_succ1 up p (hprev 0 (by omega)) hs
    · exact fetch_succ2 up p (hprev 0 (by omega)) (hprev 1 (by omega)) hs

/-- C2 witness: an always-failing upstream is given exactly 3 attempts and
then the terminal failure; an upstream serving a JS shell twice and real
data on the third attempt succeeds on attempt 3 with that payload. -/
theorem fetch_retry_bound_witness :
    fetch_weather_data upAlwaysFail = ⟨none, 3, 2⟩ ∧
    fetch_weather_data upThirdTry
      = ⟨some "<Stations><Station/></Stations>", 3, 2⟩ :=
  ⟨(fetch_retry_bound upAlwaysFail).2.1 (by decide),
   (fetch_retry_bound upThirdTry).2.2 2 "<Stations><Station/></Stations>"
     (by decide) (by decide) (by decide)⟩

/-- C3 (code bug): the browser session is released on the rendered-page
outcomes (sentinel found or not — `driver.quit()` at line 80 precedes the
check), but an attempt whose driver raises `WebDriverException` after the
session is created ends with the session acquired and never released: the
`except` branch (lines 86-87) performs no `quit` and there is no `finally`. -/
theorem session_leak_on_driver_failure :
    (runAttempt DriverBehavior.failAfterCreate).acquired = true ∧
    (runAttempt DriverBehavior.failAfterCreate).released = false ∧
    (∀ s, (runAttempt (DriverBehavior.page s)).released = true) ∧
    (runAttempt DriverBehavior.createFail).acquired = false :=
  ⟨rfl, rfl, fun _ => rfl, rfl⟩

/-- C4: the table schema is the three priority fields first, in declared
order, followed by the remaining observed keys sorted lexicographically
ascending with no duplicates; a key is in the remainder exactly when it is
observed in some record and is not a priority field; the priority fields are
always in the schema (even when absent from every record); and any
permutation of the record list yields the identical schema. -/
theorem schema_priority_first_then_sorted (rows rows2 : List Dict) :
    fieldnames rows = priority_fields ++ remaining_fields rows ∧
    List.Sorted (fun a b => a ≤ b) (remaining_fields rows) ∧
    (remaining_fields rows).Nodup ∧
    (∀ k, k ∈ remaining_fields rows ↔ (k ∈ allKeys rows ∧ ¬ k ∈ priority_fields)) ∧
    (∀ f, f ∈ priority_fields → f ∈ fieldnames rows) ∧
    (List.Perm rows rows2 → fieldnames rows = fieldnames rows2) := by
  refine ⟨rfl, sorted_remaining_fields rows, nodup_remaining_fields rows,
    mem_remaining_fields rows, ?_, ?_⟩
  · intro f hf
    exact List.mem_append_left _ hf
  · intro h
    show priority_fields ++ remaining_fields rows
      = priority_fields ++ remaining_fields rows2
    rw [remaining_fields_perm_invariant h]

/-- C4 witness: two record lists that permute each other (fields {B} then
{A} versus {A} then {B}) produce the identical schema. -/
theorem schema_priority_witness :
    fieldnames [[("B", "1")], [("A", "2")]] = fieldnames [[("A", "2")], [("B", "1")]] :=
  (schema_priority_first_then_sorted [[("B", "1")], [("A", "2")]]
      [[("A", "2")], [("B", "1")]]).2.2.2.2.2
    (List.Perm.swap [("A", "2")] [("B", "1")] [])

/-- C5: the emitted table has one row per `Station` element in document
order (no filtering, no deduplication), the `i`-th row being the schema-wide
rendering of the `i`-th station's flattened record; every emitted row has
exactly `len(schema)` values; and a schema field absent from a record is
rendered as the empty string. -/
theorem rows_complete_in_document_order (root : XmlNode) :
    csvRows root
      = (findStations root).map
          (fun s => csvRow (fieldnames (buildRows root)) (extract_all_fields s "")) ∧
    (csvRows root).length = (findStations root).length ∧
    ((csvRows root).all
      (fun r => r.length == (fieldnames (buildRows root)).length)) = true ∧
    (∀ row f, dget row f = none → cellValue row f = "") := by
  refine ⟨?_, ?_, ?_, ?_⟩
  · simp [csvRows, buildRows, List.map_map, Function.comp]
  · simp [csvRows, buildRows]
  · rw [List.all_eq_true]
    intro r hr
    obtain ⟨d, _, rfl⟩ := List.mem_map.1 hr
    simp [csvRow]
  · intro row f h
    simp [cellValue, h]

/-- C5 witness: a field absent from a record is rendered as the empty
string. -/
theorem rows_complete_witness : cellValue [] "AnyField" = "" :=
  (rows_complete_in_document_order emptyFeedDoc).2.2.2 [] "AnyField" rfl

/-- C6 counterexample: when the fetch fails, the scheduled run does NOT
suppress the failure — `send_daily_weather_update` composes the failure
message (line 172) and pushes it to every registered user (line 176), here
the one subscriber; the claim's "suppressed-but-logged (not sent to
subscribers)" is false on the code. -/
theorem scheduled_failure_message_reaches_subscribers :
    (send_daily_weather_update envFetchFail "01/01/2025" ["user1"]).1
      = [("user1",
          "❌ ข้อผิดพลาดในการอัปเดตสภาพอากาศ: Failed to fetch weather data after retries")] := by
  rfl

/-- C6 amended: pipeline failures (fetch, parse, upload) inside a scheduled
or on-demand run are caught at the pipeline boundary and converted into a
human-readable failure message — sent to the requesting user for the
on-demand command, and broadcast to every registered subscriber (not
suppressed) for the unattended scheduled run — and the run always completes
with a message (never crashes the serving process). -/
theorem pipeline_error_boundary (env : PipeEnv) (dateText user e : String)
    (subs : List String) :
    (send_daily_weather_update env dateText subs).1
        = subs.map (fun u => (u, dailyMessage env dateText)) ∧
    (handle_pull env user).1 = [(user, pullReply env)] ∧
    ((pipelineBody env).1 = Except.error e →
      dailyMessage env dateText = "❌ ข้อผิดพลาดในการอัปเดตสภาพอากาศ: " ++ e ∧
      pullReply env = "❌ เกิดข้อผิดพลาดในการดึงข้อมูล: " ++ e) ∧
    (env.fetchR = Except.error e → (pipelineBody env).1 = Except.error e) ∧
    (∀ x, env.fetchR = Except.ok x → env.parseR = Except.error e →
      (pipelineBody env).1 = Except.error e) ∧
    (∀ x y, env.fetchR = Except.ok x → env.parseR = Except.ok y →
      env.uploadR = Except.error e → (pipelineBody env).1 = Except.error e) := by
  refine ⟨rfl, rfl, ?_, ?_, ?_, ?_⟩
  · intro h
    constructor <;> simp [dailyMessage, pullReply, h]
  · intro h
    simp [pipelineBody, h]
  · intro x hx hp
    simp [pipelineBody, hx, hp]
  · intro x y hx hp hu
    simp [pipelineBody, hx, hp, hu]

/-- C6 amended witness: a failing fetch yields the composed failure texts. -/
theorem pipeline_error_boundary_witness :
    dailyMessage envFetchFail "01/01/2025"
      = "❌ ข้อผิดพลาดในการอัปเดตสภาพอากาศ: Failed to fetch weather data after retries" ∧
    pullReply envFetchFail
      = "❌ เกิดข้อผิดพลาดในการดึงข้อมูล: Failed to fetch weather data after retries" :=
  (pipeline_error_boundary envFetchFail "01/01/2025" "user1"
      "Failed to fetch weather data after retries" []).2.2.1 rfl

/-- C7 (code bug): on the empty feed `<Stations></Stations>` the fetch
sentinel passes, the parse succeeds and the count is 0 — the fetch-and-count
has succeeded with zero stations — yet `if count` (line 191) treats `0` like
the failure sentinel `None` and the router replies with the error message
instead of the count; a non-zero count and a genuine failure behave as
claimed. -/
theorem zero_station_success_replies_error :
    containsStation "<Stations></Stations>" = true ∧
    count_stations_in_weather_data (Except.ok emptyFeedDoc) = some 0 ∧
    checkReply (count_stations_in_weather_data (Except.ok emptyFeedDoc))
      = "เกิดข้อผิดพลาดในการดึงข้อมูลสถานี 😢" ∧
    checkReply (some 2) = "📡 ขณะนี้มีข้อมูลจากทั้งหมด 2 สถานีครับ" ∧
    checkReply none = "เกิดข้อผิดพลาดในการดึงข้อมูลสถานี 😢" := by
  refine ⟨by decide, rfl, rfl, ?_, rfl⟩
  rfl

/-- C8: registry mutations are idempotent at the set level — registering the
same identifier twice equals registering it once and, from a duplicate-free
store, leaves exactly one entry for it; unregistering an absent identifier
leaves the store unchanged (and raises nothing: the operation is total). -/
theorem registry_idempotent (store : List String) (uid : String)
    (h : store.Nodup) :
    register_user (register_user store uid) uid = register_user store uid ∧
    (register_user (register_user store uid) uid).count uid = 1 ∧
    (¬ uid ∈ store → unregister_user store uid = store) := by
  have hmem : uid ∈ (if uid ∈ store then store else store ++ [uid]) := by
    by_cases hs : uid ∈ store <;> simp [hs]
  have hreg : register_user (register_user store uid) uid = register_user store uid := by
    simp only [register_user, get_registered_users]
    rw [if_pos hmem]
  refine ⟨hreg, ?_, ?_⟩
  · rw [hreg]
    by_cases hs : uid ∈ store
    · simp only [register_user, get_registered_users, if_pos hs]
      exact List.count_eq_one_of_mem h hs
    · simp only [register_user, get_registered_users, if_neg hs]
      rw [List.count_append]
      rw [List.count_eq_zero.2 hs]
      simp
  · intro hs
    simp [unregister_user, get_registered_users, hs]

/-- C8 witness: from the store `["alice"]`, registering `"bob"` twice leaves
one entry for `"bob"`, and unregistering the never-subscribed `"bob"` is a
no-op. -/
theorem registry_idempotent_witness :
    (register_user (register_user ["alice"] "bob") "bob").count "bob" = 1 ∧
    unregister_user ["alice"] "bob" = ["alice"] :=
  ⟨(registry_idempotent ["alice"] "bob" (by decide)).2.1,
   (registry_idempotent ["alice"] "bob" (by decide)).2.2 (by decide)⟩

/-- C9: on every exit path of a pipeline run — success, fetch failure, parse
failure, upload failure — the temporary CSV artifact no longer exists when
the run ends (the `finally` clauses at lines 173-175 and 205-207 remove it);
and the artifact did exist mid-run whenever the parse step succeeded. -/
theorem artifact_removed_on_every_path (env : PipeEnv) (dateText user : String)
    (subs : List String) :
    (send_daily_weather_update env dateText subs).2 = false ∧
    (handle_pull env user).2 = false ∧
    (∀ x, env.fetchR = Except.ok x → env.parseR = Except.ok () →
      (pipelineBody env).2 = true) := by
  refine ⟨?_, ?_, ?_⟩
  · cases h : (pipelineBody env).2 <;>
      simp [send_daily_weather_update, h]
  · cases h : (pipelineBody env).2 <;>
      simp [handle_pull, h]
  · intro x hx hp
    simp only [pipelineBody, hx, hp]
    cases hu : env.uploadR <;> simp

/-- C9 witness: in the all-success run the artifact was created mid-run and
is gone at the end. -/
theorem artifact_removed_witness :
    (send_daily_weather_update envAllOk "01/01/2025" ["user1"]).2 = false ∧
    (pipelineBody envAllOk).2 = true :=
  ⟨(artifact_removed_on_every_path envAllOk "01/01/2025" "user1" ["user1"]).1,
   (artifact_removed_on_every_path envAllOk "01/01/2025" "user1" ["user1"]).2.2
     "<Stations/>" rfl rfl⟩

/-- C10 counterexample: with one `Station` nested inside another, the inner
station's own attribute `id="002"` DOES appear as a column value in the
table — in the row of the outer station, under the key `Station_id` — so "an
attribute on a `<Station>` element itself never appears as a column value in
any row of the built table" is false on the code. -/
theorem station_attribute_reaches_table :
    ((findStations nestedStationsDoc).getD 1 nestedStationsDoc).tag = "Station" ∧
    ((findStations nestedStationsDoc).getD 1 nestedStationsDoc).attrs
      = [("id", "002")] ∧
    csvRows nestedStationsDoc = [["", "", "", "002"], ["", "", "", ""]] := by
  refine ⟨rfl, rfl, ?_⟩
  decide

/-- C10 amended: `extract_all_fields` ignores the passed element's own
attributes and own text — the result depends only on the element's
descendants (and is empty for a childless element) — so an attribute on a
`Station` element never contributes to the row built FOR THAT STATION; it
can still surface in the row of an ancestor station when `Station` elements
are nested. -/
theorem flatten_ignores_own_attributes_and_text (t : String)
    (a1 a2 : List (String × String)) (x1 x2 : Option String)
    (cs : XmlForest) (pfx : String) :
    extract_all_fields (XmlNode.elem t a1 x1 cs) pfx
      = extract_all_fields (XmlNode.elem t a2 x2 cs) pfx ∧
    extract_all_fields (XmlNode.elem t a1 x1 XmlForest.nil) pfx = [] :=
  ⟨rfl, rfl⟩
